import Mathlib

/-!
Verification of the OsmDeviceAdapter python client core
(`src/client-python/src`) against its natural-language specification.

The development shallowly embeds the synchronization orchestrator:

* `websocket_client.py` — `WebSocketClient._run_loop` / `_connect`:
  the reconnect loop with exponential backoff (`WsState`, `wsLoopIter`,
  `wsRunSleeps`).
* `scoreboard.py` — `ScoreboardApp`: message routing (`onWsMessage`),
  the countdown timer thread body (`timerLoopIter`), the fetch handler
  (`updateScores`) and one iteration of the main control loop
  (`loopIter`).

Timestamps are modelled as integer microseconds (python `datetime`
values are microsecond-precise; `replace(microsecond=0)` becomes
`truncSec`).  Display and sleep side effects are recorded as `Event`
lists.  Randomized jitter, real-time waiting and thread scheduling are
outside the functional model; where a claim depends on an interleaving,
the model passes the message that a concurrent thread would deliver
during a wait as an explicit `Option WsMsg` argument.
-/

namespace OsmClient

/-! ## Backoff / reconnect loop (`websocket_client.py`) -/

/-- Outcome of one `_connect` call: either the handshake never succeeded
(`on_open` never fired), or the connection opened and later dropped. -/
inductive AttemptOutcome
| neverConnected
| connectedThenDropped
deriving DecidableEq, Repr

/-- State of `WebSocketClient._run_loop`: the local `backoff` variable
(seconds, integer-valued in the source: 2, 4, ..., 60) and the
`self._connected` flag. -/
structure WsState where
  backoff : ℕ
  connected : Bool
deriving DecidableEq, Repr

/-- The sequence of values passed to `_set_connected` during one
`_connect` call, in program order.

* `neverConnected`: `on_error`/`on_close` may fire with `False`, and
  line 114 (`self._set_connected(False)` after `run_forever` returns)
  always does; the flag is `false` on return.
* `connectedThenDropped`: `on_open` sets `true`; `on_close` (or
  `on_error`) sets `false` when the connection drops; line 114 sets
  `false` again after `run_forever` returns. -/
def connectedCalls : AttemptOutcome → List Bool
| AttemptOutcome.neverConnected => [false]
| AttemptOutcome.connectedThenDropped => [true, false, false]

/-- Fold a sequence of `_set_connected` calls over the flag: the final
value is the last call's argument (or the old value if none). -/
def applyCalls (c : Bool) : List Bool → Bool
| [] => c
| b :: bs => applyCalls b bs

/-- Model of `WebSocketClient._connect` (lines 76-115), restricted to its effect
on the `_connected` flag. -/
def wsConnect (s : WsState) (a : AttemptOutcome) : WsState :=
  { s with connected := applyCalls s.connected (connectedCalls a) }

/-- Source line 52: `base_backoff = 2  # seconds before first retry`. -/
def wsBaseBackoff : ℕ := 2

/-- One iteration of `WebSocketClient._run_loop` (lines 55-74), assuming
`stop` is never requested: run `_connect`, then

    if self._connected: backoff = base_backoff
    else:               backoff = min(backoff * 2, 60)

and sleep `backoff` (+ jitter, not modelled numerically) seconds.
Returns the new state and the base of the computed sleep. -/
def wsLoopIter (s : WsState) (a : AttemptOutcome) : WsState × ℕ :=
  let s1 := wsConnect s a
  let b := if s1.connected then wsBaseBackoff else min (s1.backoff * 2) 60
  ({ backoff := b, connected := s1.connected }, b)

/-- Initial `_run_loop` state: `backoff = base_backoff = 2`,
`self._connected = False` (constructor, line 22). -/
def wsInit : WsState := { backoff := wsBaseBackoff, connected := false }

/-- The base sleep durations the loop computes across a sequence of
connection attempts. -/
def wsRunSleeps (s : WsState) : List AttemptOutcome → List ℕ
| [] => []
| a :: rest =>
  let p := wsLoopIter s a
  p.2 :: wsRunSleeps p.1 rest

/-- C1: by the time line 66 (`if self._connected:`) runs, `_connected`
has always been cleared again — by `on_close`/`on_error` and by the
unconditional `_set_connected(False)` after `run_forever` returns — so
the reset branch is dead code: the computed sleep is always
`min (backoff * 2) 60`, whether or not the attempt reached Connected.
On the trace failed-attempt, connected-then-dropped, failed-attempt the
computed sleeps are 4, 8, 16: the delay after the Connected attempt is 8,
not the attempt-0 delay. -/
theorem wsc_c1_backoff_never_resets :
  (∀ (s : WsState) (a : AttemptOutcome),
      (wsLoopIter s a).2 = min (s.backoff * 2) 60)
  ∧ wsRunSleeps wsInit
      [AttemptOutcome.neverConnected, AttemptOutcome.connectedThenDropped,
       AttemptOutcome.neverConnected] = [4, 8, 16] := by
  constructor
  · intro s a
    cases a <;> rfl
  · rfl

/-- C2: the doubling at line 69 happens before the sleep, so the first
retry after the first failure already waits `min (2 * 2) 60 = 4` seconds
(plus jitter), and attempt `n` waits `min (2 * 2 ^ (n + 1)) 60`: the
sequence of base delays over five failed attempts is 4, 8, 16, 32, 60 —
never the documented 2-second first retry. -/
theorem wsc_c2_first_retry_is_four :
  wsRunSleeps wsInit (List.replicate 5 AttemptOutcome.neverConnected)
    = [4, 8, 16, 32, 60] := by
  rfl

/-! ## Orchestrator state (`scoreboard.py`, `ScoreboardApp`) -/

/-- The mutable fields of `ScoreboardApp` the orchestrator core touches
(`__init__`, lines 126-148).  `wsRunning` models `_ws_client is not
None`; the bar-graph windowing fields (`score_offset`,
`offset_initialized`) are display-only and elided.  Timer fields use the
source's string states: `inactive`, `running`, `paused`, `finished`. -/
structure AppState where
  authenticated : Bool
  cacheExpiresAt : Option ℤ
  rateLimitState : String
  refreshEvent : Bool
  timerState : String
  timerRemaining : ℤ
  timerTick : Bool
  wsRunning : Bool
deriving DecidableEq, Repr

/-- Field values set by `ScoreboardApp.__init__`. -/
def initState : AppState :=
  { authenticated := false
    cacheExpiresAt := none
    rateLimitState := "NONE"
    refreshEvent := false
    timerState := "inactive"
    timerRemaining := 0
    timerTick := false
    wsRunning := false }

/-- Recognized WebSocket message shapes (`_on_ws_message` dispatch on
`data.get("type")`); `unknown` covers every other `type` value. -/
inductive WsMsg
| refreshScores
| disconnect
| timerStart (duration : ℤ)
| timerPause
| timerResume
| timerReset
| unknown
deriving DecidableEq, Repr

/-- Observable side effects of the loop bodies: display-sink calls and
blocking sleeps (seconds). -/
inductive Event
| showScores (rateLimitState : String)
| showCountdown (remaining : ℤ) (paused : Bool)
| showMessage (text : String)
| showError (text : String)
| sleep (seconds : ℤ)
deriving DecidableEq, Repr

/-- Model of `ScoreboardApp._on_ws_message` (lines 184-207), with the
`timer-start` arm inlining `_start_timer` (lines 209-221): the old timer
thread is torn down (state forced `inactive`, tick set, join), then
`_timer_remaining = duration`, tick cleared, state `running`, new thread
started; the net state after `_start_timer` returns is shown here.
`disconnect` only logs (lines 190-191). `timer-pause` / `timer-resume` /
`timer-reset` assign the state unconditionally and set the tick event. -/
def onWsMessage (s : AppState) : WsMsg → AppState
| WsMsg.refreshScores => { s with refreshEvent := true }
| WsMsg.disconnect => s
| WsMsg.timerStart d =>
  { s with timerState := "running", timerRemaining := d, timerTick := false }
| WsMsg.timerPause => { s with timerState := "paused", timerTick := true }
| WsMsg.timerResume => { s with timerState := "running", timerTick := true }
| WsMsg.timerReset => { s with timerState := "inactive", timerTick := true }
| WsMsg.unknown => s

/-- One pass through the body of `ScoreboardApp._timer_loop`
(lines 225-243).  `mid` is the message, if any, that the WebSocket
thread dispatches while this thread is inside `self._timer_tick.wait`;
the model applies it atomically at that point (one legal interleaving).
`wait` returns `true` iff the tick event is set; the body then clears
the event, decrements on an uninterrupted 1-second wait in `running`,
clamps at zero into `finished`, and always ends with one
`show_countdown` call (lines 241-243). -/
def timerLoopIter (s : AppState) (mid : Option WsMsg) : AppState × List Event :=
  if s.timerState = "running" then
    let s1 := match mid with
      | some m => onWsMessage s m
      | none => s
    let signalled := s1.timerTick
    let s2 := { s1 with timerTick := false }
    let s3 :=
      if !signalled && s2.timerState == "running" then
        let r := s2.timerRemaining - 1
        if r ≤ 0 then { s2 with timerRemaining := 0, timerState := "finished" }
        else { s2 with timerRemaining := r }
      else s2
    (s3, [Event.showCountdown s3.timerRemaining (s3.timerState == "paused")])
  else
    let s1 := match mid with
      | some m => onWsMessage s m
      | none => s
    let s2 := { s1 with timerTick := false }
    (s2, [Event.showCountdown s2.timerRemaining (s2.timerState == "paused")])

/-! ## Poll scheduling and fetch handling (`scoreboard.py`) -/

/-- Python `datetime.replace(microsecond=0)` on a timestamp in integer
microseconds (python `%` and Lean `Int` `%` both return a non-negative
remainder for a positive modulus). -/
def truncSec (t : ℤ) : ℤ := t - t % 1000000

/-- Categorized outcome of one `client.get_patrol_scores()` call as
`update_scores` distinguishes them (lines 331-416): success carries the
response's `cache_expires_at` and `rate_limit_state` and whether the
server requested a WebSocket; `authExpired` is a `DeviceFlowError`
whose text contains "Authentication" or "401" (line 413);
`otherDeviceFlowError` is any other `DeviceFlowError`; `unexpected` is
any exception that is not a `DeviceFlowError` (for instance from the
display sink), which no handler in `update_scores` catches. -/
inductive FetchOutcome
| success (cacheExpiresAt : ℤ) (rateLimitState : String) (wsRequested : Bool)
| sectionNotFound
| notInTerm
| userTemporaryBlock (blockedUntil : ℤ)
| serviceBlocked
| authExpired
| otherDeviceFlowError
| unexpected
deriving DecidableEq, Repr

/-- Model of `ScoreboardApp.update_scores` (lines 324-416) at time `now`
(microseconds).  Returns `.ok (state, events)` when the attempt is
handled, `.error state` when an uncategorized exception propagates out
of the method (carrying the state as mutated before the raise: only the
`LOADING` indicator, lines 327-329, precedes the `try`). -/
def updateScores (now : ℤ) (s : AppState) (o : FetchOutcome) :
    Except AppState (AppState × List Event) :=
  let s := if s.cacheExpiresAt.isSome then { s with rateLimitState := "LOADING" } else s
  match o with
  | FetchOutcome.success t rls wsReq =>
    let s := { s with cacheExpiresAt := some t, rateLimitState := rls }
    let s := if wsReq && !s.wsRunning then { s with wsRunning := true } else s
    Except.ok (s, [Event.showScores s.rateLimitState])
  | FetchOutcome.sectionNotFound =>
    Except.ok ({ s with authenticated := false, wsRunning := false },
      [Event.showError "Section Lost", Event.sleep 5])
  | FetchOutcome.notInTerm =>
    Except.ok ({ s with cacheExpiresAt := some (now + 24 * 3600 * 1000000) },
      [Event.showMessage "Between Terms"])
  | FetchOutcome.userTemporaryBlock u =>
    Except.ok ({ s with cacheExpiresAt := some u },
      [Event.showMessage "Rate Limited", Event.sleep 2])
  | FetchOutcome.serviceBlocked =>
    Except.ok ({ s with rateLimitState := "SERVICE_BLOCKED",
                        cacheExpiresAt := some (now + 3600 * 1000000) },
      [Event.showScores "SERVICE_BLOCKED"])
  | FetchOutcome.authExpired =>
    Except.ok ({ s with authenticated := false, wsRunning := false },
      [Event.showError "Score Error"])
  | FetchOutcome.otherDeviceFlowError =>
    Except.ok (s, [Event.showError "Score Error"])
  | FetchOutcome.unexpected => Except.error s

/-- Lines 449-452 of `ScoreboardApp.run`: when not authenticated, stop
the WebSocket client and re-authenticate (a successful `authenticate()`
sets `self.authenticated = True`); the iteration then continues. -/
def authStep (s : AppState) : AppState :=
  if s.authenticated then s
  else { s with wsRunning := false, authenticated := true }

/-- Lines 460-480 of `ScoreboardApp.run`: decide whether to poll now.
A set `_refresh_event` is cleared and forces a poll; otherwise a missing
`cache_expires_at` forces a poll; otherwise poll once
`now ≥ cache_expires_at.replace(microsecond=0) + 7s`
(`time_until_poll = (poll_time - now).total_seconds() + 7 ≤ 0`). -/
def pollDecision (now : ℤ) (s : AppState) : AppState × Bool :=
  if s.refreshEvent then ({ s with refreshEvent := false }, true)
  else
    match s.cacheExpiresAt with
    | none => (s, true)
    | some t => (s, decide (truncSec t + 7 * 1000000 ≤ now))

/-- Result of one iteration of the `while self.running` loop:
the state, the emitted events, whether a fetch attempt was made, and
whether the loop terminated (an uncaught exception propagated to the
outer handler at lines 490-493, which logs, shows "Fatal Error" and
falls through to `finally` — `run()` returns). -/
structure IterResult where
  state : AppState
  events : List Event
  fetched : Bool
  terminated : Bool
deriving DecidableEq, Repr

/-- One iteration of `ScoreboardApp.run`'s main loop (lines 448-486) at
time `now`, where `o` is the outcome `get_patrol_scores` would produce
if called.  While the timer is active (lines 454-458) the iteration
waits briefly, clears `_refresh_event`, and `continue`s without
polling.  The trailing 1-second `_refresh_event.wait` (line 486) has no
state effect and is not recorded. -/
def loopIter (now : ℤ) (o : FetchOutcome) (s : AppState) : IterResult :=
  let s := authStep s
  if s.timerState = "inactive" then
    let pr := pollDecision now s
    if pr.2 then
      match updateScores now pr.1 o with
      | Except.ok (s2, ev) =>
        { state := s2, events := ev, fetched := true, terminated := false }
      | Except.error s2 =>
        { state := s2, events := [Event.showError "Fatal Error"],
          fetched := true, terminated := true }
    else { state := pr.1, events := [], fetched := false, terminated := false }
  else
    { state := { s with refreshEvent := false }, events := [],
      fetched := false, terminated := false }

/-! ## Helper lemmas -/

theorem authStep_eq_of_auth (s : AppState) (h : s.authenticated = true) :
    authStep s = s := by
  simp [authStep, h]

theorem authStep_timerState (s : AppState) :
    (authStep s).timerState = s.timerState := by
  unfold authStep
  split <;> rfl

/-- The method `update_scores` never touches `_refresh_event`, whether it returns
normally or raises. -/
theorem updateScores_ok_refreshEvent (now : ℤ) (s : AppState) (o : FetchOutcome)
    (s2 : AppState) (ev : List Event)
    (h : updateScores now s o = Except.ok (s2, ev)) :
    s2.refreshEvent = s.refreshEvent := by
  cases o <;> simp only [updateScores] at h <;> (repeat' split at h) <;>
    first
    | exact Except.noConfusion h
    | (injection h with h1; injection h1 with h2 h3; subst h2; rfl)

theorem updateScores_error_refreshEvent (now : ℤ) (s : AppState) (o : FetchOutcome)
    (s2 : AppState) (h : updateScores now s o = Except.error s2) :
    s2.refreshEvent = s.refreshEvent := by
  cases o <;> simp only [updateScores] at h <;> (repeat' split at h) <;>
    first
    | exact Except.noConfusion h
    | (injection h with h1; subst h1; rfl)

/-- Every categorized (`DeviceFlowError`) outcome is handled inside
`update_scores`: only an uncategorized exception escapes. -/
theorem updateScores_ok_of_categorized (now : ℤ) (s : AppState) (o : FetchOutcome)
    (ho : o ≠ FetchOutcome.unexpected) :
    ∃ p, updateScores now s o = Except.ok p := by
  cases o
  case unexpected => exact absurd rfl ho
  all_goals exact ⟨_, rfl⟩

/-- When authenticated with the timer inactive, one loop iteration is
the poll branch of the source (lines 460-483). -/
theorem loopIter_eq_of_inactive (now : ℤ) (o : FetchOutcome) (s : AppState)
    (hA : s.authenticated = true) (hT : s.timerState = "inactive") :
    loopIter now o s =
      if (pollDecision now s).2 then
        match updateScores now (pollDecision now s).1 o with
        | Except.ok (s2, ev) =>
          { state := s2, events := ev, fetched := true, terminated := false }
        | Except.error s2 =>
          { state := s2, events := [Event.showError "Fatal Error"],
            fetched := true, terminated := true }
      else
        { state := (pollDecision now s).1, events := [], fetched := false,
          terminated := false } := by
  have has : authStep s = s := authStep_eq_of_auth s hA
  simp [loopIter, has, hT]

/-- With the timer active, one loop iteration only clears the wake
signal (lines 455-458). -/
theorem loopIter_eq_of_active (now : ℤ) (o : FetchOutcome) (s : AppState)
    (hT : s.timerState ≠ "inactive") :
    loopIter now o s =
      { state := { authStep s with refreshEvent := false }, events := [],
        fetched := false, terminated := false } := by
  have hT2 : ¬((authStep s).timerState = "inactive") := by
    rw [authStep_timerState]
    exact hT
  simp [loopIter, hT2]

/-- When authenticated, the timer inactive, no wake signal pending and a
cache expiry recorded, the iteration fetches exactly when
`now ≥ cache_expires_at.replace(microsecond=0) + 7s`. -/
theorem loopIter_fetched_iff (now : ℤ) (o : FetchOutcome) (s : AppState) (t : ℤ)
    (hA : s.authenticated = true) (hT : s.timerState = "inactive")
    (hR : s.refreshEvent = false) (hC : s.cacheExpiresAt = some t) :
    (loopIter now o s).fetched = true ↔ truncSec t + 7 * 1000000 ≤ now := by
  have h2 : pollDecision now s
      = (s, decide (truncSec t + 7 * 1000000 ≤ now)) := by
    simp [pollDecision, hR, hC]
  rw [loopIter_eq_of_inactive now o s hA hT, h2]
  split_ifs with hc
  · replace hc := of_decide_eq_true hc
    cases hu : updateScores now s o with
    | ok p =>
      obtain ⟨s2, ev⟩ := p
      exact iff_of_true rfl hc
    | error s2 =>
      exact iff_of_true rfl hc
  · refine iff_of_false ?_ (fun h => hc (decide_eq_true h))
    intro h
    simp at h

/-! ## Claim theorems -/

/-- Concrete state for C3: timer thread active, a refresh-scores wake
signal pending, a far-future cache expiry so no scheduled poll is due. -/
def sC3 : AppState :=
  { initState with
    authenticated := true,
    timerState := "running",
    refreshEvent := true,
    cacheExpiresAt := some 1000000000000 }

/-- C3 counterexample: with the timer active, the loop iteration clears
the pending wake signal without fetching (lines 455-458), and after a
timer reset the following iteration does not fetch either — the signal
was consumed without ever causing a fetch. -/
theorem orch_c3_wake_lost_while_timer_active :
  (loopIter 0 FetchOutcome.otherDeviceFlowError sC3).fetched = false
  ∧ (loopIter 0 FetchOutcome.otherDeviceFlowError sC3).state.refreshEvent = false
  ∧ (loopIter 1000000 FetchOutcome.otherDeviceFlowError
      (onWsMessage (loopIter 0 FetchOutcome.otherDeviceFlowError sC3).state
        WsMsg.timerReset)).fetched = false := by
  decide

/-- C3 (amended): a refresh-scores message sets the coalescing wake
signal; repeated messages before consumption collapse to one; while the
timer is Inactive a pending signal forces a fetch on the next loop check
regardless of the computed poll time and is consumed by it; but while
the timer is active the loop clears a pending signal without fetching,
so such a signal is discarded. -/
theorem orch_c3_wake_forces_fetch_and_coalesces
    (now : ℤ) (o : FetchOutcome) (s : AppState)
    (hR : s.refreshEvent = true) :
  onWsMessage (onWsMessage s WsMsg.refreshScores) WsMsg.refreshScores
      = onWsMessage s WsMsg.refreshScores
  ∧ (s.authenticated = true → s.timerState = "inactive" →
      (loopIter now o s).fetched = true
      ∧ (loopIter now o s).state.refreshEvent = false)
  ∧ (s.timerState ≠ "inactive" →
      (loopIter now o s).fetched = false
      ∧ (loopIter now o s).state.refreshEvent = false) := by
  refine ⟨rfl, ?_, ?_⟩
  · intro hA hT
    have hps : pollDecision now s = ({ s with refreshEvent := false }, true) := by
      simp [pollDecision, hR]
    rw [loopIter_eq_of_inactive now o s hA hT, hps]
    cases hu : updateScores now { s with refreshEvent := false } o with
    | ok p =>
      obtain ⟨s2, ev⟩ := p
      have := updateScores_ok_refreshEvent now _ o s2 ev hu
      simp [hu]
      simpa using this
    | error s2 =>
      have := updateScores_error_refreshEvent now _ o s2 hu
      simp [hu]
      simpa using this
  · intro hT
    rw [loopIter_eq_of_active now o s hT]
    exact ⟨rfl, rfl⟩

/-- C3 witness. -/
theorem orch_c3_wake_witness :
  (loopIter 0 FetchOutcome.otherDeviceFlowError
      { initState with authenticated := true, refreshEvent := true }).fetched = true :=
  ((orch_c3_wake_forces_fetch_and_coalesces 0 FetchOutcome.otherDeviceFlowError
      { initState with authenticated := true, refreshEvent := true } rfl).2.1
    rfl rfl).1

/-- C4 counterexample: a `timer-pause` received while the timer is
Inactive moves the state to `paused` (not a no-op), a `timer-resume`
received while Finished moves it to `running`, and after the spurious
pause the main loop stops polling (display ownership leaves the
scheduler), whereas from the same state without the pause it polls. -/
theorem orch_c4_pause_not_noop_when_inactive :
  (onWsMessage initState WsMsg.timerPause).timerState = "paused"
  ∧ (onWsMessage { initState with timerState := "finished" }
      WsMsg.timerResume).timerState = "running"
  ∧ (loopIter 0 FetchOutcome.otherDeviceFlowError initState).fetched = true
  ∧ (loopIter 0 FetchOutcome.otherDeviceFlowError
      (onWsMessage initState WsMsg.timerPause)).fetched = false := by
  decide

/-- C4 (amended): the commands `timer-pause`, `timer-resume` and `timer-reset` set
the timer state unconditionally — to Paused, Running and Inactive
respectively — from any current state (lines 196-207), touching nothing
but the timer state and the tick event; in particular Pause while
Inactive or Finished is not a no-op. -/
theorem orch_c4_pause_resume_unconditional (s : AppState) :
  onWsMessage s WsMsg.timerPause
      = { s with timerState := "paused", timerTick := true }
  ∧ onWsMessage s WsMsg.timerResume
      = { s with timerState := "running", timerTick := true }
  ∧ onWsMessage s WsMsg.timerReset
      = { s with timerState := "inactive", timerTick := true } :=
  ⟨rfl, rfl, rfl⟩

/-- C5 counterexample: a `timer-start` with duration 0 or -5 leaves the
engine in `running` with the unclamped non-positive duration as
`remaining_seconds` (lines 209-221) — not immediately `finished`. -/
theorem timer_c5_start_nonpos_runs_unclamped :
  (onWsMessage initState (WsMsg.timerStart 0)).timerState = "running"
  ∧ (onWsMessage initState (WsMsg.timerStart 0)).timerRemaining = 0
  ∧ (onWsMessage initState (WsMsg.timerStart (-5))).timerState = "running"
  ∧ (onWsMessage initState (WsMsg.timerStart (-5))).timerRemaining = -5 := by
  decide

/-- C5 (amended): a `Start(d)` with `d ≤ 0` puts the engine in Running
with `remaining_seconds = d` (unclamped); the first uninterrupted
1-second tick then clamps to 0, transitions to Finished and renders a
single countdown frame showing 0.  The engine itself is a total
function — no command input makes it fail. -/
theorem timer_c5_start_nonpos_finishes_after_one_tick
    (s : AppState) (d : ℤ) (hd : d ≤ 0) :
  (onWsMessage s (WsMsg.timerStart d)).timerState = "running"
  ∧ (onWsMessage s (WsMsg.timerStart d)).timerRemaining = d
  ∧ (timerLoopIter (onWsMessage s (WsMsg.timerStart d)) none).1.timerState
      = "finished"
  ∧ (timerLoopIter (onWsMessage s (WsMsg.timerStart d)) none).1.timerRemaining = 0
  ∧ (timerLoopIter (onWsMessage s (WsMsg.timerStart d)) none).2
      = [Event.showCountdown 0 false] := by
  refine ⟨rfl, rfl, ?_⟩
  have hr : d - 1 ≤ 0 := by omega
  simp [onWsMessage, timerLoopIter, hr]

/-- C5 witness. -/
theorem timer_c5_witness :
  (-3 : ℤ) ≤ 0
  ∧ (timerLoopIter (onWsMessage initState (WsMsg.timerStart (-3))) none).1.timerState
      = "finished" :=
  ⟨by decide,
   (timer_c5_start_nonpos_finishes_after_one_tick initState (-3) (by decide)).2.2.1⟩

/-- Concrete state for C6: live WebSocket client, valid auth. -/
def sC6 : AppState := { initState with authenticated := true, wsRunning := true }

/-- C6 counterexample: dispatching a `disconnect` (session-terminated)
message leaves the WebSocket client running and authentication valid —
the handler only logs (lines 190-191). -/
theorem orch_c6_disconnect_leaves_state :
  (onWsMessage sC6 WsMsg.disconnect).wsRunning = true
  ∧ (onWsMessage sC6 WsMsg.disconnect).authenticated = true :=
  ⟨rfl, rfl⟩

/-- C6 (amended): a session-terminated (`disconnect`) realtime message
is logged and otherwise ignored: the dispatch is the identity on the
application state — it neither stops the Realtime Connection nor marks
authentication invalid. -/
theorem orch_c6_disconnect_is_noop (s : AppState) :
  onWsMessage s WsMsg.disconnect = s :=
  rfl

/-- Concrete state for C7: timer thread running with 10 seconds left. -/
def sC7 : AppState :=
  { initState with timerState := "running", timerRemaining := 10 }

/-- C7 counterexample: a `timer-reset` arriving while the timer thread
is inside its 1-second wait moves the state to Inactive, yet the loop
body still executes lines 241-243 before re-checking the loop condition:
a `show_countdown` render call occurs while `TimerState = Inactive`. -/
theorem timer_c7_countdown_render_while_inactive :
  (timerLoopIter sC7 (some WsMsg.timerReset)).1.timerState = "inactive"
  ∧ (timerLoopIter sC7 (some WsMsg.timerReset)).2
      = [Event.showCountdown 10 false] := by
  decide

/-- C7 (amended): while the timer is not Inactive the orchestrator loop
issues no display call at all (in particular no score render) and does
not fetch, and the timer loop only ever issues countdown renders — but
the mutual exclusion is not exact: after a reset observed mid-wait the
timer loop emits one final countdown render when the state is already
Inactive. -/
theorem c7_display_ownership
    (now : ℤ) (o : FetchOutcome) (s : AppState) (mid : Option WsMsg)
    (h : s.timerState ≠ "inactive") :
  (loopIter now o s).events = []
  ∧ (loopIter now o s).fetched = false
  ∧ (∀ e ∈ (timerLoopIter s mid).2, ∃ r p, e = Event.showCountdown r p)
  ∧ (s.timerState = "running" →
      (timerLoopIter s (some WsMsg.timerReset)).1.timerState = "inactive"
      ∧ (timerLoopIter s (some WsMsg.timerReset)).2
          = [Event.showCountdown s.timerRemaining false]) := by
  rw [loopIter_eq_of_active now o s h]
  refine ⟨rfl, rfl, ?_, ?_⟩
  · intro e he
    unfold timerLoopIter at he
    split at he <;> simp at he <;> exact ⟨_, _, he⟩
  · intro hr
    constructor <;> simp [timerLoopIter, hr, onWsMessage]

/-- C7 witness. -/
theorem c7_display_ownership_witness :
  (loopIter 0 FetchOutcome.otherDeviceFlowError sC7).events = []
  ∧ (timerLoopIter sC7 (some WsMsg.timerReset)).2
      = [Event.showCountdown 10 false] := by
  have h := c7_display_ownership 0 FetchOutcome.otherDeviceFlowError sC7 none
    (by decide)
  exact ⟨h.1, (h.2.2.2 rfl).2⟩

/-- Concrete state for C8: authenticated, cache expiry previously set to
the block's `until` timestamp T2 = 100s (in microseconds). -/
def sC8 : AppState :=
  { initState with authenticated := true, cacheExpiresAt := some 100000000 }

/-- C8 counterexample: a `TemporaryBlock(until = 100s)` outcome stores
`until` in `cache_expires_at` (with the 2s grace sleep), but the loop
does not poll at `until`: at 103s — three seconds past `until` — no
fetch happens, and the first fetch becomes possible only at
`until + 7s = 107s`, because the scheduler adds its 7-second buffer to
`cache_expires_at` unconditionally (line 475). -/
theorem orch_c8_poll_not_at_until :
  updateScores 0 { initState with authenticated := true }
      (FetchOutcome.userTemporaryBlock 100000000)
    = Except.ok (sC8, [Event.showMessage "Rate Limited", Event.sleep 2])
  ∧ (loopIter 103000000 FetchOutcome.otherDeviceFlowError sC8).fetched = false
  ∧ (loopIter 107000000 FetchOutcome.otherDeviceFlowError sC8).fetched = true := by
  refine ⟨rfl, ?_, ?_⟩ <;> decide

/-- C8 (amended): given `TemporaryBlock(until = T2)` the handler sets
`cache_expires_at := T2` and pauses 2 seconds, and the loop then polls
exactly when `now ≥ trunc-to-second(T2) + 7s` — seven seconds after the
block expiry, not at `T2` itself. -/
theorem orch_c8_block_reschedule
    (now now2 u : ℤ) (o : FetchOutcome) (s : AppState)
    (hA : s.authenticated = true) (hT : s.timerState = "inactive")
    (hR : s.refreshEvent = false) (hC : s.cacheExpiresAt = some u) :
  (∃ s2 ev, updateScores now s (FetchOutcome.userTemporaryBlock u)
      = Except.ok (s2, ev)
    ∧ s2.cacheExpiresAt = some u ∧ Event.sleep 2 ∈ ev)
  ∧ ((loopIter now2 o s).fetched = true ↔ truncSec u + 7 * 1000000 ≤ now2) := by
  constructor
  · have h1 : updateScores now s (FetchOutcome.userTemporaryBlock u)
        = Except.ok
            ({ s with rateLimitState := "LOADING", cacheExpiresAt := some u },
             [Event.showMessage "Rate Limited", Event.sleep 2]) := by
      simp [updateScores, hC]
    exact ⟨_, _, h1, rfl, by simp⟩
  · exact loopIter_fetched_iff now2 o s u hA hT hR hC

/-- C8 witness. -/
theorem orch_c8_block_reschedule_witness :
  (loopIter 107000000 FetchOutcome.otherDeviceFlowError sC8).fetched = true :=
  (orch_c8_block_reschedule 0 107000000 100000000
      FetchOutcome.otherDeviceFlowError sC8 rfl rfl rfl rfl).2.mpr (by decide)

/-- Concrete state for C9: authenticated, cache expiry T = 0.5s (a
timestamp with a non-zero microsecond part). -/
def sC9 : AppState :=
  { initState with authenticated := true, cacheExpiresAt := some 500000 }

/-- C9 counterexample: after a success with `cache_expires_at = 0.5s`,
the loop already fetches at 7.0s, which is strictly earlier than
`T + 7s = 7.5s`: the scheduled time is `T.replace(microsecond=0) + 7s`,
not exactly `T + 7s`. -/
theorem orch_c9_polls_before_T_plus_7s :
  updateScores 0 { initState with authenticated := true }
      (FetchOutcome.success 500000 "NONE" false)
    = Except.ok (sC9, [Event.showScores "NONE"])
  ∧ (loopIter 7000000 FetchOutcome.otherDeviceFlowError sC9).fetched = true
  ∧ (7000000 : ℤ) < 500000 + 7 * 1000000 := by
  refine ⟨rfl, ?_, ?_⟩ <;> decide

/-- C9 (amended): a success with `cache_expires_at = T` stores `T`, and
the loop then polls exactly when
`now ≥ T.replace(microsecond=0) + 7s`; this equals `T + 7s` precisely
when `T` falls on a whole second. -/
theorem orch_c9_success_reschedule
    (now now2 t : ℤ) (rls : String) (w : Bool) (o : FetchOutcome) (s : AppState)
    (hA : s.authenticated = true) (hT : s.timerState = "inactive")
    (hR : s.refreshEvent = false) (hC : s.cacheExpiresAt = some t) :
  (∃ s2 ev, updateScores now s (FetchOutcome.success t rls w)
      = Except.ok (s2, ev) ∧ s2.cacheExpiresAt = some t)
  ∧ ((loopIter now2 o s).fetched = true ↔ truncSec t + 7 * 1000000 ≤ now2)
  ∧ (t % 1000000 = 0 →
      ((loopIter now2 o s).fetched = true ↔ t + 7 * 1000000 ≤ now2)) := by
  have h2 : (loopIter now2 o s).fetched = true
      ↔ truncSec t + 7 * 1000000 ≤ now2 :=
    loopIter_fetched_iff now2 o s t hA hT hR hC
  refine ⟨?_, h2, ?_⟩
  · simp only [updateScores]
    refine ⟨_, _, rfl, ?_⟩
    first
    | rfl
    | (repeat' split) <;> rfl
  · intro hm
    have ht : truncSec t = t := by
      unfold truncSec
      omega
    rw [ht] at h2
    exact h2

/-- C9 witness. -/
theorem orch_c9_success_reschedule_witness :
  (loopIter 7000000 FetchOutcome.otherDeviceFlowError sC9).fetched = true :=
  (orch_c9_success_reschedule 0 7000000 500000 "NONE" false
      FetchOutcome.otherDeviceFlowError sC9 rfl rfl rfl rfl).2.1.mpr (by decide)

/-- Concrete state for C10: authenticated, wake signal pending so the
iteration fetches. -/
def sC10 : AppState :=
  { initState with authenticated := true, refreshEvent := true }

/-- C10 counterexample: a fetch attempt that raises anything other than
a `DeviceFlowError` escapes `update_scores`, crosses the `while` loop,
is caught only by the outer handler (lines 490-493) which shows "Fatal
Error" — and then `run()` returns: the control loop terminates. -/
theorem orch_c10_unexpected_ends_loop :
  (loopIter 0 FetchOutcome.unexpected sC10).terminated = true
  ∧ (loopIter 0 FetchOutcome.unexpected sC10).events
      = [Event.showError "Fatal Error"] := by
  decide

/-- C10 (amended): every categorized fetch failure (a `DeviceFlowError`)
is handled inside `update_scores` and the loop continues; but an
uncategorized exception is caught only once, at the outer boundary
around the whole loop, after which the loop exits (`run()` returns)
instead of being treated as a Transient failure. -/
theorem orch_c10_error_boundary
    (now : ℤ) (o : FetchOutcome) (s : AppState)
    (hA : s.authenticated = true) :
  (o ≠ FetchOutcome.unexpected → (loopIter now o s).terminated = false)
  ∧ (s.timerState = "inactive" → s.refreshEvent = true →
      (loopIter now FetchOutcome.unexpected s).terminated = true
      ∧ (loopIter now FetchOutcome.unexpected s).events
          = [Event.showError "Fatal Error"]) := by
  constructor
  · intro ho
    by_cases hT : s.timerState = "inactive"
    · rw [loopIter_eq_of_inactive now o s hA hT]
      obtain ⟨p, hp⟩ := updateScores_ok_of_categorized now (pollDecision now s).1 o ho
      obtain ⟨s2, ev⟩ := p
      split
      · rw [hp]
      · rfl
    · rw [loopIter_eq_of_active now o s hT]
  · intro hT hR
    have hps : pollDecision now s = ({ s with refreshEvent := false }, true) := by
      simp [pollDecision, hR]
    rw [loopIter_eq_of_inactive now FetchOutcome.unexpected s hA hT, hps]
    exact ⟨rfl, rfl⟩

/-- C10 witness. -/
theorem orch_c10_error_boundary_witness :
  (loopIter 0 FetchOutcome.sectionNotFound sC10).terminated = false
  ∧ (loopIter 0 FetchOutcome.unexpected sC10).terminated = true := by
  have h := orch_c10_error_boundary 0 FetchOutcome.sectionNotFound sC10 rfl
  exact ⟨h.1 (by decide), (h.2 rfl rfl).1⟩

end OsmClient
